import Mathlib

/-!
Verification of the cosmos remote-job runner (nlp4bia-bsc/cosmos-model).

The development shallowly embeds the pure/observable parts of
`cosmos/runner.py`, `cosmos/utils.py` and `cosmos/ssh_connection.py`:
Python strings become `String`, Python lists become `List`, the
`dict` of installed packages becomes an association list, remote side
effects become explicit action traces, and Python object references
(mutable list arguments) become indices into an explicit store.
-/

namespace Cosmos

/-! ## Python string primitives

Executable models of the Python `str` operations the runner uses
(`in`, `strip`, `split`, `split(sep)`, `split(sep, 1)`), written over
`List Char` so that every definition reduces in the kernel. -/

/-- Boolean test that `needle` occurs as a contiguous sublist of the
second argument; models the Python substring test `needle in hay`. -/
def subList (needle : List Char) : List Char → Bool
  | [] => needle.isEmpty
  | c :: cs => needle.isPrefixOf (c :: cs) || subList needle cs

/-- Python `needle in hay` on strings. -/
def strContains (hay needle : String) : Bool :=
  subList needle.data hay.data

/-- Python `s.lower()` (ASCII range, which covers package names). -/
def pyLower (s : String) : String :=
  String.mk (s.data.map Char.toLower)

/-- Python `s.strip()`: removes leading and trailing whitespace. -/
def pyStrip (s : String) : String :=
  String.mk (((s.data.dropWhile Char.isWhitespace).reverse.dropWhile Char.isWhitespace).reverse)

/-- Python `s.split(sep)` for a one-character separator: keeps empty
pieces and always returns at least one piece. -/
def pySplitChar (sep : Char) (s : String) : List String :=
  let st := s.data.foldl
    (fun (acc : List String × List Char) c =>
      if c = sep then (acc.1 ++ [String.mk acc.2.reverse], []) else (acc.1, c :: acc.2))
    ([], [])
  st.1 ++ [String.mk st.2.reverse]

/-- Python `s.split()` with no argument: splits on runs of whitespace
and never yields empty tokens. -/
def pyWords (s : String) : List String :=
  let st := s.data.foldl
    (fun (acc : List String × List Char) c =>
      if c.isWhitespace then
        match acc.2 with
        | [] => (acc.1, [])
        | cur => (acc.1 ++ [String.mk cur.reverse], [])
      else (acc.1, c :: acc.2))
    ([], [])
  match st.2 with
  | [] => st.1
  | cur => st.1 ++ [String.mk cur.reverse]

/-- Splits a character list at the first occurrence of `needle`;
`none` when `needle` does not occur. Models Python
`s.split(needle, 1)` restricted to the case `needle in s`. -/
def splitOnceAt (needle : List Char) : List Char → Option (List Char × List Char)
  | [] => none
  | c :: cs =>
    if needle.isPrefixOf (c :: cs) then some ([], (c :: cs).drop needle.length)
    else
      match splitOnceAt needle cs with
      | none => none
      | some p => some (c :: p.1, p.2)

/-! ## Execution types (cosmos/execution_types.py) -/

def TRAINING_MODEL : String := "training_model"

def DEFAULT_SCRIPT : String := "default_script"

/-! ## Remote Shell output filtering (cosmos/ssh_connection.py, remote_command)

The source builds `filtered_stdout = [line for line in out if "bsc/1.0" not in line]`
where `out` is the decoded output STRING, so the comprehension iterates
over its characters: each `line` is a one-character string. -/

/-- Embeds the list-comprehension filter of `remote_command`
(ssh_connection.py lines 90-93): iterate over the characters of the
stream, keep a character unless it contains the marker, and join. -/
def stream_filter (s : String) : String :=
  String.mk (s.data.filter (fun c => ! strContains (String.mk [c]) "bsc/1.0"))

/-- Embeds `remote_command`'s returned pair (filtered stdout, filtered stderr). -/
def remote_command_outputs (out err : String) : String × String :=
  (stream_filter out, stream_filter err)

/-- Modelled from the spec: the Remote Shell `execute` operation must
filter out every LINE containing the benign warning marker `bsc/1.0`
from a stream before returning it.  Named for comparison with
`stream_filter`, the filter the source actually implements. -/
def stream_filter_spec (s : String) : String :=
  String.intercalate "\n"
    ((pySplitChar (Char.ofNat 10) s).filter (fun line => ! strContains line "bsc/1.0"))

/-! ## Environment reconciliation (cosmos/utils.py, compute_missing_packages) -/

/-- Loop body of `compute_missing_packages` (utils.py lines 209-226).
A `some` result of `splitOnceAt` corresponds to the Python guard
`"==" in req` together with `pkg, ver = req.split("==", 1)`; the
installed dictionary is an association list with `List.lookup` playing
the role of `in` / `[]` on a dict with unique keys. -/
def missing_step (installed_packages : List (String × String))
    (missing : List String) (req : String) : List String :=
  match splitOnceAt "==".data req.data with
  | some p =>
    let pkg_lower := pyLower (String.mk p.1)
    match installed_packages.lookup pkg_lower with
    | none => missing ++ [req]
    | some installed_ver =>
      if installed_ver ≠ String.mk p.2 then missing ++ [req] else missing
  | none =>
    let pkg_lower := pyLower req
    match installed_packages.lookup pkg_lower with
    | none => missing ++ [req]
    | some _ => missing

/-- Embeds `compute_missing_packages` (utils.py lines 178-227). -/
def compute_missing_packages (requirements : List String)
    (installed_packages : List (String × String)) : List String :=
  requirements.foldl (missing_step installed_packages) []

/-- Criterion stated by the claim: a `name==version` requirement is
missing iff the lower-cased name is absent or present with a version
string that differs by exact string comparison; a bare requirement is
missing iff the name is absent. -/
def req_missing (installed_packages : List (String × String)) (req : String) : Bool :=
  match splitOnceAt "==".data req.data with
  | some p =>
    match installed_packages.lookup (pyLower (String.mk p.1)) with
    | none => true
    | some installed_ver => installed_ver ≠ String.mk p.2
  | none => (installed_packages.lookup (pyLower req)).isNone

/-! ## Job-name generation (cosmos/runner.py lines 120-122, 132, 161-162) -/

/-- Embeds the name derivation of `run`: the `job_name` parameter is
received but line 122 unconditionally overwrites it with
`job_` followed by the timestamp string, and the remote directory and
the two log paths are derived from that overwritten name only. -/
def run_job_names (remote_base_path : String) (job_name_arg : Option String)
    (now_str : String) : String × String × String × String :=
  let job_name := "job_" ++ now_str
  let remote_job_dir := remote_base_path ++ "/" ++ job_name
  let out_file := remote_job_dir ++ "/" ++ job_name ++ ".out"
  let err_file := remote_job_dir ++ "/" ++ job_name ++ ".err"
  (job_name, remote_job_dir, out_file, err_file)

/-! ## Submission acknowledgment parsing (cosmos/runner.py lines 214-222) -/

def sbatch_marker : String := "Submitted batch job"

/-- Embeds the job-id parsing loop of `run`: scan every line of the
sbatch output, and each time a line contains the marker overwrite the
candidate with `line.strip().split()[-1]`; afterwards a falsy
candidate (`None` or the empty string) becomes `"unknown"`. -/
def parse_job_id (out : String) : String :=
  let job_id := (pySplitChar (Char.ofNat 10) out).foldl
    (fun job_id line =>
      if strContains line sbatch_marker then
        some ((pyWords (pyStrip line)).getLast?.getD "")
      else job_id)
    none
  match job_id with
  | none => "unknown"
  | some j => if j = "" then "unknown" else j

/-- Follows the words of the spec for comparison (refinement): the
job id is the trailing token of the FIRST line containing the marker,
`"unknown"` when no line matches. -/
def parse_job_id_spec (out : String) : String :=
  match (pySplitChar (Char.ofNat 10) out).find? (fun line => strContains line sbatch_marker) with
  | some line => (pyWords (pyStrip line)).getLast?.getD "unknown"
  | none => "unknown"

/-! ## Monitoring loop (cosmos/runner.py monitor_job, cosmos/utils.py tail_file) -/

/-- Embeds `tail_file` (utils.py lines 45-58).  The remote file is an
`Option String`: `none` is a read that fails with `IOError`, in which
case the original `last_position` is returned; otherwise the file is
seeked to `last_position`, read to the end, and the new position is
`f.tell()` — the end of the file when the offset was inside it, the
unchanged seek position when the offset was already past the end. -/
def tail_file (remote_file : Option String) (last_position : Nat) : Nat :=
  match remote_file with
  | none => last_position
  | some data =>
    if last_position ≤ data.utf8ByteSize then data.utf8ByteSize else last_position

/-- One scheduler observation of the monitoring loop: the raw squeue
output and the two remote log files (`none` = unreadable). -/
structure Poll where
  squeue_out : String
  out_file : Option String
  err_file : Option String

/-- Embeds line 446 of `monitor_job`:
`job_state = out_stat.strip() if out_stat else "DONE"`. -/
def job_state_of (out_stat : String) : String :=
  if out_stat = "" then "DONE" else pyStrip out_stat

/-- Embeds the exit test of line 462 of `monitor_job`: terminal
classifications plus any state containing `DONE`. -/
def is_finished (job_state : String) : Bool :=
  job_state = "COMPLETED" || job_state = "FAILED" || job_state = "CANCELLED"
    || job_state = "TIMEOUT" || strContains job_state "DONE"

/-- Embeds the `while True` loop of `monitor_job` run against a
scripted list of polls: each iteration computes the job state, tails
both files (updating the byte offsets), and exits when the state is
terminal.  Returns the number of polls performed (`none` when the
script is exhausted with the loop still running) and the trace of
`(out, err)` offsets after each poll. -/
def monitor_steps : List Poll → Nat → Nat → Option Nat × List (Nat × Nat)
  | [], _, _ => (none, [])
  | p :: rest, last_out_pos, last_err_pos =>
    let job_state := job_state_of p.squeue_out
    let out2 := tail_file p.out_file last_out_pos
    let err2 := tail_file p.err_file last_err_pos
    if is_finished job_state then (some 1, [(out2, err2)])
    else
      let r := monitor_steps rest out2 err2
      (r.1.map (· + 1), (out2, err2) :: r.2)

/-- Componentwise order on the pair of byte offsets. -/
def offsets_le (a b : Nat × Nat) : Prop := a.1 ≤ b.1 ∧ a.2 ≤ b.2

/-! ## Posix path model (os.path.normpath / os.path.join, as used by cleanup) -/

/-- The path separator. -/
def slashChar : Char := Char.ofNat 47

/-- True when the string starts with `/`; models `kp.startswith("/")`
and the absolute-path test of `posixpath.join`. -/
def startsWithSlash (s : String) : Bool :=
  s.data.head? == some slashChar

/-- True when the string ends with `/`. -/
def endsWithSlash (s : String) : Bool :=
  s.data.getLast? == some slashChar

/-- Number of initial slashes `posixpath.normpath` preserves: 2 for a
path starting with exactly two slashes, otherwise 1 for an absolute
path, 0 for a relative one. -/
def initialSlashes (p : String) : Nat :=
  match p.data with
  | [] => 0
  | [c] => if c = slashChar then 1 else 0
  | [c1, c2] => if c1 = slashChar then (if c2 = slashChar then 2 else 1) else 0
  | c1 :: c2 :: c3 :: _ =>
    if c1 = slashChar then
      (if c2 = slashChar then (if c3 = slashChar then 1 else 2) else 1)
    else 0

/-- Component step of `posixpath.normpath`: skip empty and `.`
components, append ordinary ones, and make `..` pop the previous
component except at the start of a relative path or after an
unresolved `..`. -/
def normStep (has_slashes : Bool) (acc : List String) (comp : String) : List String :=
  if comp = "" || comp = "." then acc
  else if comp != ".." || (!has_slashes && acc.isEmpty) || acc.getLast? == some ".." then
    acc ++ [comp]
  else if !acc.isEmpty then acc.dropLast
  else acc

/-- Models `os.path.normpath` on posix paths: collapses repeated
slashes and `.` components and resolves `..` lexically. -/
def normpath (p : String) : String :=
  if p = "" then "."
  else
    let ns := initialSlashes p
    let comps := pySplitChar slashChar p
    let new_comps := comps.foldl (normStep (ns != 0)) []
    let res := String.mk (List.replicate ns slashChar) ++ String.intercalate "/" new_comps
    if res = "" then "." else res

/-- Models `os.path.join` on posix paths for two arguments. -/
def pathJoin (a b : String) : String :=
  if startsWithSlash b then b
  else if a = "" || endsWithSlash a then a ++ b
  else a ++ "/" ++ b

/-! ## Retention cleaner (cosmos/runner.py cleanup_remote_folder, lines 504-533) -/

/-- Embeds the normalization of one keep path (lines 506-511): a
relative entry is normalized with `normpath`, joined onto the job
directory and normalized again; an absolute entry is used as-is. -/
def keep_abs (remote_job_dir kp : String) : String :=
  if !startsWithSlash kp then
    normpath (pathJoin remote_job_dir (normpath kp))
  else kp

/-- Embeds the exclusion-list construction (lines 504-514): for each
keep path, append the normalized absolute path and the same path with
`/*` behind it. -/
def exclusions (remote_job_dir : String) (keep_paths : List String) : List String :=
  keep_paths.foldl
    (fun acc kp => acc ++ [keep_abs remote_job_dir kp, keep_abs remote_job_dir kp ++ "/*"])
    []

/-- Embeds line 516: each exclusion becomes a quoted `! -path`
clause, joined with spaces. -/
def exclude_str (excl : List String) : String :=
  String.intercalate " " (excl.map (fun e => "! -path \x27" ++ e ++ "\x27"))

/-- Embeds the file-deletion command of lines 517-522. -/
def cmd_delete_files (remote_job_dir : String) (keep_paths : List String) : String :=
  ("find " ++ remote_job_dir ++ " -type f ")
    ++ "! -name \x27*.out\x27 ! -name \x27*.err\x27"
    ++ (" " ++ exclude_str (exclusions remote_job_dir keep_paths) ++ " -delete")

/-- Embeds the empty-directory sweep command of line 527. -/
def cmd_delete_dirs (remote_job_dir : String) : String :=
  "find " ++ remote_job_dir ++ " -type d -empty -delete"

/-- Embeds the sequence of shell commands `cleanup_remote_folder`
issues, in execution order: first the file deletion (line 523), then
the empty-directory sweep (line 528). -/
def cleanup_remote_folder_cmds (remote_job_dir : String) (keep_paths : List String) :
    List String :=
  [cmd_delete_files remote_job_dir keep_paths, cmd_delete_dirs remote_job_dir]

/-! ## Slurm-branch tail of run (cosmos/runner.py lines 193-253)

The remote side effects that follow a scheduled submission are
modelled as a trace of actions, and the raising of Python's
UnboundLocalError as an `Except.error` result. -/

/-- Remote-lifecycle actions of the post-submission code. -/
inductive SlurmAction where
  | monitor (job_id out_file err_file : String)
  | cancel (job_id : String)
  | cleanup (remote_job_dir : String) (keep_paths : List String)
  | copy_logs (remote_source local_dest : String)
deriving DecidableEq

/-- The Job Record dictionary built at lines 228-235. -/
structure JobInfo where
  job_id : String
  job_name : String
  remote_job_dir : String
  out_file : String
  err_file : String
  outputs : List String
deriving DecidableEq

/-- Embeds lines 197-200: the local variable `local_logs_folder` is
ASSIGNED (to `os.path.join(os.getcwd(), "logs")`) only when the
execution type is `training_model` with a non-empty
`training_logs_path`; in every other case the name stays unbound. -/
def local_logs_folder_binding (cwd execution_type training_logs_path : String) :
    Option String :=
  if execution_type = TRAINING_MODEL ∧ training_logs_path ≠ "" then
    some (pathJoin cwd "logs")
  else none

/-- Embeds lines 237-246: the monitor / cancel-on-interrupt /
cleanup actions, all of them nested under
`if watch and job_id != "unknown"`. -/
def watch_actions (watch interrupted delete_files_after_execution : Bool)
    (job_id out_file err_file remote_job_dir : String) (outputs : List String) :
    List SlurmAction :=
  if watch ∧ job_id ≠ "unknown" then
    [SlurmAction.monitor job_id out_file err_file]
      ++ (if interrupted then [SlurmAction.cancel job_id] else [])
      ++ (if delete_files_after_execution then
            [SlurmAction.cleanup remote_job_dir outputs] else [])
  else []

/-- Embeds the `execute_with_slurm` branch of `run` after the sbatch
call (lines 209-253): parse the job id, build the Job Record, run the
watch block, then UNCONDITIONALLY execute lines 248-251, which read
`local_logs_folder` (an UnboundLocalError when it was never assigned)
and archive-and-extract the remote training-logs directory into a
local destination named after the job, before returning the record. -/
def run_slurm_tail (cwd remote_job_dir job_name out_file err_file : String)
    (sbatch_out : String) (watch interrupted delete_files_after_execution : Bool)
    (execution_type training_logs_path : String) (outputs : List String) :
    List SlurmAction × Except String JobInfo :=
  let job_id := parse_job_id sbatch_out
  let job_info : JobInfo :=
    ⟨job_id, job_name, remote_job_dir, out_file, err_file, outputs⟩
  let acts := watch_actions watch interrupted delete_files_after_execution
    job_id out_file err_file remote_job_dir outputs
  match local_logs_folder_binding cwd execution_type training_logs_path with
  | none =>
    (acts, Except.error "UnboundLocalError: local_logs_folder referenced before assignment")
  | some folder =>
    let remote_source := remote_job_dir ++ "/" ++ training_logs_path
    let local_dest := pathJoin folder job_name
    (acts ++ [SlurmAction.copy_logs remote_source local_dest], Except.ok job_info)

/-! ## Mutable outputs argument of run (cosmos/runner.py lines 44, 193-195, 234)

Python passes the outputs list by object reference and evaluates the
default expression `[]` once at definition time.  The object heap is
modelled as a store mapping references (naturals) to list values. -/

/-- Store of list objects, indexed by reference. -/
structure Store where
  lists : Nat → List String

/-- Reads the list object a reference points to. -/
def store_get (σ : Store) (r : Nat) : List String := σ.lists r

/-- Overwrites the list object a reference points to. -/
def store_set (σ : Store) (r : Nat) (v : List String) : Store :=
  ⟨fun i => if i = r then v else σ.lists i⟩

/-- Embeds lines 193-195 of `run`: when the execution type is
`training_model` with a non-empty `training_logs_path` that is not
yet in the outputs list, `outputs.append(training_logs_path)` mutates
the caller's list object in place. -/
def run_outputs_update (σ : Store) (outputs_ref : Nat)
    (execution_type training_logs_path : String) : Store :=
  if execution_type = TRAINING_MODEL ∧ training_logs_path ≠ "" then
    let cur := store_get σ outputs_ref
    if training_logs_path ∈ cur then σ
    else store_set σ outputs_ref (cur ++ [training_logs_path])
  else σ

/-- Embeds the observable effect of one `run` call on its outputs
argument: the store after the in-place append together with the
reference stored in the returned record's `outputs` field (line 234
stores the same list object, not a copy). -/
def run_with_outputs_ref (σ : Store) (outputs_ref : Nat)
    (execution_type training_logs_path : String) : Store × Nat :=
  (run_outputs_update σ outputs_ref execution_type training_logs_path, outputs_ref)

/-- The single list object created for the default value `[]` of the
outputs parameter (line 44), shared by every call that omits the
argument. -/
def default_outputs_ref : Nat := 0

/-- A `run` call that omits the outputs argument: it operates on the
shared default list object. -/
def run_default_outputs (σ : Store) (execution_type training_logs_path : String) :
    Store × Nat :=
  run_with_outputs_ref σ default_outputs_ref execution_type training_logs_path

/-! ## Helper lemmas -/

lemma exclusions_eq (remote_job_dir : String) :
    ∀ (keep_paths : List String) (acc : List String),
      keep_paths.foldl
        (fun acc kp => acc ++ [keep_abs remote_job_dir kp, keep_abs remote_job_dir kp ++ "/*"])
        acc
        = acc ++ keep_paths.flatMap
            (fun kp => [keep_abs remote_job_dir kp, keep_abs remote_job_dir kp ++ "/*"]) := by
  intro keep_paths
  induction keep_paths with
  | nil => intro acc; simp
  | cons kp kps ih =>
    intro acc
    rw [List.foldl_cons, ih]
    simp

lemma stream_filter_keeps (c : Char) : (! strContains (String.mk [c]) "bsc/1.0") = true := by
  simp [strContains, subList, List.isPrefixOf]

lemma stream_filter_id (s : String) : stream_filter s = s := by
  unfold stream_filter
  rw [List.filter_eq_self.mpr (fun c _ => stream_filter_keeps c)]

lemma missing_step_eq (installed_packages : List (String × String))
    (missing : List String) (req : String) :
    missing_step installed_packages missing req
      = missing ++ (if req_missing installed_packages req then [req] else []) := by
  unfold missing_step req_missing
  cases hs : splitOnceAt "==".data req.data with
  | none =>
    cases hl : installed_packages.lookup (pyLower req) <;> simp [hl]
  | some p =>
    cases hl : installed_packages.lookup (pyLower (String.mk p.1)) with
    | none => simp [hl]
    | some v =>
      by_cases hv : v = String.mk p.2 <;> simp [hl, hv]

lemma compute_missing_packages_foldl (installed_packages : List (String × String)) :
    ∀ (requirements acc : List String),
      requirements.foldl (missing_step installed_packages) acc
        = acc ++ requirements.filter (req_missing installed_packages) := by
  intro requirements
  induction requirements with
  | nil => intro acc; simp
  | cons req reqs ih =>
    intro acc
    rw [List.foldl_cons, ih, missing_step_eq]
    by_cases h : req_missing installed_packages req <;> simp [h]

lemma foldl_overwrite_reverse_find {α β : Type} (p : α → Bool) (f : α → β) :
    ∀ (l : List α) (acc : Option β),
      l.foldl (fun a x => if p x then some (f x) else a) acc
        = match l.reverse.find? p with
          | some x => some (f x)
          | none => acc := by
  intro l
  induction l with
  | nil => intro acc; simp
  | cons a l ih =>
    intro acc
    rw [List.foldl_cons, ih, List.reverse_cons, List.find?_append]
    cases h : l.reverse.find? p with
    | some x => simp [h, Option.or]
    | none =>
      by_cases hp : p a <;> simp [h, hp, Option.or, List.find?]

lemma tail_file_ge (c : Option String) (p : Nat) : p ≤ tail_file c p := by
  cases c with
  | none => simp [tail_file]
  | some s =>
    simp only [tail_file]
    split <;> omega

lemma monitor_steps_chain :
    ∀ (script : List Poll) (po pe : Nat),
      List.Chain' offsets_le ((po, pe) :: (monitor_steps script po pe).2) := by
  intro script
  induction script with
  | nil =>
    intro po pe
    exact List.chain'_singleton _
  | cons p rest ih =>
    intro po pe
    simp only [monitor_steps]
    by_cases h : is_finished (job_state_of p.squeue_out)
    · simp only [h, if_true]
      exact List.chain'_cons.mpr
        ⟨⟨tail_file_ge _ _, tail_file_ge _ _⟩, List.chain'_singleton _⟩
    · simp only [h, if_false]
      exact List.chain'_cons.mpr ⟨⟨tail_file_ge _ _, tail_file_ge _ _⟩, ih _ _⟩

/-! ## Claim theorems -/

/-- C5: compute_missing_packages marks a `name==version` requirement
missing iff the lower-cased name is absent from the snapshot or
present with a version string that differs by exact string comparison,
and marks a bare-name requirement missing iff the name is absent; the
result is the order-stable filter of the requirement list by that
criterion, and `["numpy==1.2.0", "requests"]` against
`numpy -> 1.2.0` yields `["requests"]`. -/
theorem compute_missing_packages_c5 :
    (∀ (requirements : List String) (installed_packages : List (String × String)),
      compute_missing_packages requirements installed_packages
        = requirements.filter (req_missing installed_packages))
    ∧ compute_missing_packages ["numpy==1.2.0", "requests"] [("numpy", "1.2.0")]
        = ["requests"] := by
  constructor
  · intro requirements installed_packages
    unfold compute_missing_packages
    rw [compute_missing_packages_foldl]
    simp
  · decide

/-- C3: the claim says `remote_command` removes every line containing
the marker `bsc/1.0` from both streams.  The code iterates over the
CHARACTERS of each stream (a one-character string can never contain
the seven-character marker), so the filter keeps everything: both
streams come back unchanged, and in particular a stream consisting of
a line containing the marker comes back with that line intact, while
the behaviour the spec and the docstring describe would remove it. -/
theorem remote_command_c3_filter_noop :
    (∀ out err : String, remote_command_outputs out err = (out, err))
    ∧ remote_command_outputs "load bsc/1.0\n" "WARNING bsc/1.0\n"
        = ("load bsc/1.0\n", "WARNING bsc/1.0\n")
    ∧ stream_filter_spec "load bsc/1.0\n" = ""
    ∧ ("load bsc/1.0\n" : String) ≠ "" := by
  refine ⟨fun out err => ?_, ?_, ?_, ?_⟩
  · unfold remote_command_outputs
    rw [stream_filter_id, stream_filter_id]
  · unfold remote_command_outputs
    rw [stream_filter_id, stream_filter_id]
  · decide
  · decide

/-- C10: the `job_name` argument of `run` has no effect on the
outcome: two calls identical except for the supplied `job_name`
produce the same generated job name, remote job directory, out file
and err file, and the generated name is `job_` followed by the
timestamp string. -/
theorem run_c10_job_name_independent :
    (∀ (remote_base_path now_str : String) (j1 j2 : Option String),
      run_job_names remote_base_path j1 now_str = run_job_names remote_base_path j2 now_str)
    ∧ ∀ (remote_base_path now_str : String) (j : Option String),
      (run_job_names remote_base_path j now_str).1 = "job_" ++ now_str := by
  exact ⟨fun _ _ _ _ => rfl, fun _ _ _ => rfl⟩

/-- C4 counterexample: the claim says the parsed job identifier is
the trailing token of the FIRST line containing the marker, but the
parsing loop keeps overwriting the candidate, so on an acknowledgment
with two marker lines the code yields the token of the LAST one
(`"222"`) while the first line carries `"111"`. -/
theorem parse_job_id_c4_counterexample :
    parse_job_id "Submitted batch job 111\nSubmitted batch job 222" = "222"
    ∧ parse_job_id_spec "Submitted batch job 111\nSubmitted batch job 222" = "111"
    ∧ ("222" : String) ≠ "111" := by
  refine ⟨by decide, by decide, by decide⟩

/-- C4 amended: the parsed job identifier is the trailing
whitespace-separated token of the LAST line containing the marker
`Submitted batch job` (equivalently the first matching line of the
reversed output); output containing `Submitted batch job 12345`
yields `"12345"`, and if no line contains the marker the sentinel
`"unknown"` is used. -/
theorem parse_job_id_c4_last_marker :
    (∀ out : String, parse_job_id out
      = match (pySplitChar (Char.ofNat 10) out).reverse.find?
              (fun line => strContains line sbatch_marker) with
        | some line =>
          if (pyWords (pyStrip line)).getLast?.getD "" = "" then "unknown"
          else (pyWords (pyStrip line)).getLast?.getD ""
        | none => "unknown")
    ∧ parse_job_id "Submitted batch job 12345" = "12345"
    ∧ parse_job_id "sbatch: error: something else" = "unknown" := by
  refine ⟨fun out => ?_, by decide, by decide⟩
  unfold parse_job_id
  rw [foldl_overwrite_reverse_find]
  cases h : (pySplitChar (Char.ofNat 10) out).reverse.find?
      (fun line => strContains line sbatch_marker) with
  | some line => simp
  | none => simp

/-- C7: on the scripted status sequence RUNNING, RUNNING, COMPLETED
the monitoring loop polls the scheduler exactly 3 times and then
exits (whatever the log files contain at each poll), and on every
script the recorded stdout and stderr byte offsets never decrease
across polls. -/
theorem monitor_job_c7_polls_and_monotone :
    (∀ o1 e1 o2 e2 o3 e3 : Option String,
      (monitor_steps [⟨"RUNNING", o1, e1⟩, ⟨"RUNNING", o2, e2⟩, ⟨"COMPLETED", o3, e3⟩] 0 0).1
        = some 3)
    ∧ ∀ (script : List Poll) (po pe : Nat),
        List.Chain' offsets_le ((po, pe) :: (monitor_steps script po pe).2) := by
  constructor
  · intro o1 e1 o2 e2 o3 e3
    simp [monitor_steps,
      show is_finished (job_state_of "RUNNING") = false from by decide,
      show is_finished (job_state_of "COMPLETED") = true from by decide]
  · exact monitor_steps_chain

/-- C8: when the remote log read fails with an I/O error, tail_file
returns the previous byte offset unchanged, and a monitoring
iteration whose two log files are unreadable records the unchanged
offsets and moves on to the next poll instead of aborting: the trace
extends with the old offsets and the remaining polls are still
counted. -/
theorem tail_file_c8_transient (p : Poll) (rest : List Poll) (po pe : Nat)
    (hout : p.out_file = none) (herr : p.err_file = none)
    (hrun : is_finished (job_state_of p.squeue_out) = false) :
    (∀ last_position : Nat, tail_file none last_position = last_position)
    ∧ (monitor_steps (p :: rest) po pe).2 = (po, pe) :: (monitor_steps rest po pe).2
    ∧ (monitor_steps (p :: rest) po pe).1 = ((monitor_steps rest po pe).1).map (· + 1) := by
  refine ⟨fun _ => rfl, ?_, ?_⟩ <;>
    simp [monitor_steps, hout, herr, hrun, tail_file]

/-- C8 witness: a concrete unreadable poll ahead of a terminal one. -/
theorem tail_file_c8_transient_witness :
    tail_file none 7 = 7
    ∧ (monitor_steps [⟨"RUNNING", none, none⟩, ⟨"COMPLETED", none, none⟩] 0 0).2
        = (0, 0) :: (monitor_steps [⟨"COMPLETED", none, none⟩] 0 0).2
    ∧ (monitor_steps [⟨"RUNNING", none, none⟩, ⟨"COMPLETED", none, none⟩] 0 0).1
        = ((monitor_steps [⟨"COMPLETED", none, none⟩] 0 0).1).map (· + 1) := by
  have h := tail_file_c8_transient ⟨"RUNNING", none, none⟩
    [⟨"COMPLETED", none, none⟩] 0 0 rfl rfl (by decide)
  exact ⟨h.1 7, h.2.1, h.2.2⟩

/-- C6: the exclusion set built by cleanup_remote_folder contains,
for every keep path (relative entries resolved against the job
directory with `.` and `..` collapsed, absolute entries as-is), both
the normalized path and the wildcard `path/*`; the example
`keep_paths = [outputs/model.pt]` under `/jobs/j1` yields exactly
those two entries; the file-deletion command always carries the
hard-coded `! -name` exemptions for `*.out` and `*.err` whatever the
keep list; and the file deletion is issued before the
empty-directory sweep. -/
theorem cleanup_c6_exclusions (remote_job_dir : String) (keep_paths : List String)
    (kp : String) (hkp : kp ∈ keep_paths) :
    (keep_abs remote_job_dir kp ∈ exclusions remote_job_dir keep_paths
      ∧ keep_abs remote_job_dir kp ++ "/*" ∈ exclusions remote_job_dir keep_paths)
    ∧ exclusions "/jobs/j1" ["outputs/model.pt"]
        = ["/jobs/j1/outputs/model.pt", "/jobs/j1/outputs/model.pt/*"]
    ∧ (∃ before after, cmd_delete_files remote_job_dir keep_paths
        = before ++ "! -name \x27*.out\x27 ! -name \x27*.err\x27" ++ after)
    ∧ (cleanup_remote_folder_cmds remote_job_dir keep_paths).head?
        = some (cmd_delete_files remote_job_dir keep_paths)
    ∧ cmd_delete_dirs remote_job_dir
        ∈ (cleanup_remote_folder_cmds remote_job_dir keep_paths).tail := by
  refine ⟨?_, by decide, ?_, rfl, ?_⟩
  · have he : exclusions remote_job_dir keep_paths
        = keep_paths.flatMap
            (fun kp => [keep_abs remote_job_dir kp, keep_abs remote_job_dir kp ++ "/*"]) := by
      unfold exclusions
      rw [exclusions_eq]
      simp
    rw [he]
    constructor
    · exact List.mem_flatMap.mpr ⟨kp, hkp, by simp⟩
    · exact List.mem_flatMap.mpr ⟨kp, hkp, by simp⟩
  · exact ⟨"find " ++ remote_job_dir ++ " -type f ",
      " " ++ exclude_str (exclusions remote_job_dir keep_paths) ++ " -delete", rfl⟩
  · simp [cleanup_remote_folder_cmds]

/-- C6 witness: the theorem applied at the spec example. -/
theorem cleanup_c6_exclusions_witness :
    (keep_abs "/jobs/j1" "outputs/model.pt" ∈ exclusions "/jobs/j1" ["outputs/model.pt"]
      ∧ keep_abs "/jobs/j1" "outputs/model.pt" ++ "/*"
          ∈ exclusions "/jobs/j1" ["outputs/model.pt"])
    ∧ exclusions "/jobs/j1" ["outputs/model.pt"]
        = ["/jobs/j1/outputs/model.pt", "/jobs/j1/outputs/model.pt/*"]
    ∧ (∃ before after, cmd_delete_files "/jobs/j1" ["outputs/model.pt"]
        = before ++ "! -name \x27*.out\x27 ! -name \x27*.err\x27" ++ after)
    ∧ (cleanup_remote_folder_cmds "/jobs/j1" ["outputs/model.pt"]).head?
        = some (cmd_delete_files "/jobs/j1" ["outputs/model.pt"])
    ∧ cmd_delete_dirs "/jobs/j1"
        ∈ (cleanup_remote_folder_cmds "/jobs/j1" ["outputs/model.pt"]).tail :=
  cleanup_c6_exclusions "/jobs/j1" ["outputs/model.pt"] "outputs/model.pt" (by simp)

lemma cleanup_mem_watch_actions (w i d : Bool) (jid o e dir : String) (outs : List String) :
    SlurmAction.cleanup dir outs ∈ watch_actions w i d jid o e dir outs
      ↔ (w = true ∧ jid ≠ "unknown" ∧ d = true) := by
  unfold watch_actions
  by_cases hw : w = true ∧ jid ≠ "unknown"
  · rw [if_pos hw]
    cases i <;> cases d <;> simp [hw.1, hw.2]
  · rw [if_neg hw]
    simp only [List.not_mem_nil, false_iff]
    intro h
    exact hw ⟨h.1, h.2.1⟩

/-- C1: the claim says the step that archives the remote artifact
directory and extracts it locally happens only for
`execution_type == "training_model"` with a non-empty
`training_logs_path`, and that every other execution type completes
and returns the Job Record without it.  The code contradicts this
(and its own docstring for `training_logs_path`): lines 248-251 run
unconditionally in the scheduled branch, and for every non-training
execution they read the local variable `local_logs_folder`, which
lines 197-200 only assign in the training case — so a plain
`default_script` run raises UnboundLocalError instead of returning
the record, while a training run with a non-empty path does perform
the retrieval and returns the record. -/
theorem run_c1_training_retrieval :
    (run_slurm_tail "/cwd" "/base/job_a" "job_a" "o.out" "e.err" "Submitted batch job 1"
        false false true DEFAULT_SCRIPT "" []).2
      = Except.error "UnboundLocalError: local_logs_folder referenced before assignment"
    ∧ (run_slurm_tail "/cwd" "/base/job_a" "job_a" "o.out" "e.err" "Submitted batch job 1"
        false false true TRAINING_MODEL "logs/train" ["logs/train"]).2
      = Except.ok ⟨"1", "job_a", "/base/job_a", "o.out", "e.err", ["logs/train"]⟩
    ∧ SlurmAction.copy_logs "/base/job_a/logs/train" "/cwd/logs/job_a"
        ∈ (run_slurm_tail "/cwd" "/base/job_a" "job_a" "o.out" "e.err" "Submitted batch job 1"
            false false true TRAINING_MODEL "logs/train" ["logs/train"]).1 := by
  refine ⟨rfl, rfl, by decide⟩

/-- C2 counterexample: a scheduled submission with cleanup requested
(`delete_files_after_execution = true`), a perfectly parseable job id
and `watch = false` performs NO cleanup action at all — the Retention
Cleaner call sits inside the `if watch and job_id != "unknown"` block
— refuting the claim that cleanup happens irrespective of watch. -/
theorem run_c2_counterexample :
    (run_slurm_tail "/cwd" "/base/job_x" "job_x" "o.out" "e.err" "Submitted batch job 7"
        false false true TRAINING_MODEL "out" ["out"]).1
      = [SlurmAction.copy_logs "/base/job_x/out" "/cwd/logs/job_x"]
    ∧ ∀ (d : String) (k : List String), SlurmAction.cleanup d k
        ∉ (run_slurm_tail "/cwd" "/base/job_x" "job_x" "o.out" "e.err" "Submitted batch job 7"
            false false true TRAINING_MODEL "out" ["out"]).1 := by
  have hlist : (run_slurm_tail "/cwd" "/base/job_x" "job_x" "o.out" "e.err"
      "Submitted batch job 7" false false true TRAINING_MODEL "out" ["out"]).1
      = [SlurmAction.copy_logs "/base/job_x/out" "/cwd/logs/job_x"] := by decide
  refine ⟨hlist, ?_⟩
  intro d k
  rw [hlist]
  simp

/-- C2 amended: in the scheduled branch the Retention Cleaner is
invoked on the job's remote directory with the record's outputs as
the keep-list exactly when cleanup was requested AND monitoring was
requested AND a usable job id was parsed
(`watch ∧ job_id ≠ "unknown" ∧ delete_files_after_execution`). -/
theorem run_c2_cleanup_condition (cwd dir jn o e sb : String) (w i d : Bool)
    (et tlp : String) (outs : List String) :
    SlurmAction.cleanup dir outs ∈ (run_slurm_tail cwd dir jn o e sb w i d et tlp outs).1
      ↔ (w = true ∧ parse_job_id sb ≠ "unknown" ∧ d = true) := by
  cases hb : local_logs_folder_binding cwd et tlp with
  | none =>
    simp only [run_slurm_tail, hb]
    exact cleanup_mem_watch_actions w i d (parse_job_id sb) o e dir outs
  | some folder =>
    simp only [run_slurm_tail, hb, List.mem_append, List.mem_singleton]
    rw [cleanup_mem_watch_actions w i d (parse_job_id sb) o e dir outs]
    simp

/-- C9: run mutates its caller-visible outputs argument in place:
the record's outputs field aliases the very reference that was passed
in; in the training case with a new non-empty `training_logs_path`
the referenced list object becomes the old list with that path
appended; and two successive calls that omit the argument share the
single default list object, so entries accumulate across runs. -/
theorem run_outputs_c9_aliasing (σ : Store) (r : Nat) (et tlp tlp1 tlp2 : String)
    (htlp : tlp ≠ "") (hmem : tlp ∉ store_get σ r)
    (h1 : tlp1 ≠ "") (h2 : tlp2 ≠ "") (h12 : tlp2 ≠ tlp1)
    (hm1 : tlp1 ∉ store_get σ default_outputs_ref)
    (hm2 : tlp2 ∉ store_get σ default_outputs_ref) :
    (run_with_outputs_ref σ r et tlp).2 = r
    ∧ store_get (run_with_outputs_ref σ r TRAINING_MODEL tlp).1 r
        = store_get σ r ++ [tlp]
    ∧ store_get
        ((run_default_outputs ((run_default_outputs σ TRAINING_MODEL tlp1).1)
            TRAINING_MODEL tlp2).1) default_outputs_ref
        = store_get σ default_outputs_ref ++ [tlp1, tlp2] := by
  have hmem' : tlp ∉ σ.lists r := hmem
  have hm1' : tlp1 ∉ σ.lists default_outputs_ref := hm1
  have hm2' : tlp2 ∉ σ.lists default_outputs_ref := hm2
  refine ⟨rfl, ?_, ?_⟩
  · simp [run_with_outputs_ref, run_outputs_update, store_get, store_set, htlp, hmem']
  · simp [run_default_outputs, run_with_outputs_ref, run_outputs_update,
      store_get, store_set, h1, h2, h12, hm1', hm2']

/-- C9 witness: a fresh store, an explicit reference and two default
calls, instantiating every hypothesis. -/
theorem run_outputs_c9_aliasing_witness :
    (run_with_outputs_ref ⟨fun _ => []⟩ 5 DEFAULT_SCRIPT "a").2 = 5
    ∧ store_get (run_with_outputs_ref ⟨fun _ => []⟩ 5 TRAINING_MODEL "a").1 5
        = store_get (⟨fun _ => []⟩ : Store) 5 ++ ["a"]
    ∧ store_get
        ((run_default_outputs ((run_default_outputs ⟨fun _ => []⟩ TRAINING_MODEL "p").1)
            TRAINING_MODEL "q").1) default_outputs_ref
        = store_get (⟨fun _ => []⟩ : Store) default_outputs_ref ++ ["p", "q"] :=
  run_outputs_c9_aliasing ⟨fun _ => []⟩ 5 DEFAULT_SCRIPT "a" "p" "q"
    (by decide) (by simp [store_get]) (by decide) (by decide) (by decide)
    (by simp [store_get]) (by simp [store_get])

end Cosmos
